import Mathlib

/-!
Shallow embedding of `src/api/generate-audio.js` (the current, corrected
variant of the handler: header-based API key, `data.audio` field,
`flush: true`).  Pure data flow is modelled directly; the WebSocket
callback protocol is modelled as a step function over an explicit
session state driven by a list of inbound events; the promise is
modelled by a settle-once `settled` field; external collaborators
(S3, Airtable) are modelled by boolean success flags in an environment
plus an effect log recording the calls that were performed.
-/

/-! ### Base64 decoding (model of `Buffer.from(s, 'base64')`)

Node's base64 decoder ignores characters outside the base64 alphabet
(including padding) and drops a trailing group that is too short to
form a byte. -/

/-- Value of one base64 alphabet character, `none` for characters
outside the alphabet (they are skipped, as Node does). -/
def base64Index (c : Char) : Option Nat :=
  if 'A' ≤ c ∧ c ≤ 'Z' then some (c.toNat - 'A'.toNat)
  else if 'a' ≤ c ∧ c ≤ 'z' then some (c.toNat - 'a'.toNat + 26)
  else if '0' ≤ c ∧ c ≤ '9' then some (c.toNat - '0'.toNat + 52)
  else if c = '+' then some 62
  else if c = '/' then some 63
  else none

/-- Regroup 6-bit values into 8-bit bytes; an incomplete trailing group
yields only the fully determined bytes (a lone sextet yields none). -/
def sextetsToBytes : List Nat → List Nat
  | a :: b :: c :: d :: rest =>
      (a * 4 + b / 16) :: ((b % 16) * 16 + c / 4) :: ((c % 4) * 64 + d)
        :: sextetsToBytes rest
  | [a, b] => [a * 4 + b / 16]
  | [a, b, c] => [a * 4 + b / 16, (b % 16) * 16 + c / 4]
  | _ => []

/-- Model of `Buffer.from(s, 'base64')` as a byte list. -/
def base64Decode (s : String) : List Nat :=
  sextetsToBytes (s.toList.filterMap base64Index)

/-! ### Decimal rendering (model of template interpolation of `Date.now()`) -/

/-- The ten decimal digit characters. -/
def decChar : Nat → Char
  | 0 => '0'
  | 1 => '1'
  | 2 => '2'
  | 3 => '3'
  | 4 => '4'
  | 5 => '5'
  | 6 => '6'
  | 7 => '7'
  | 8 => '8'
  | 9 => '9'
  | _ => '?'

/-- Fuel-driven most-significant-first decimal digit list of a positive
number (structural recursion on the fuel so that it evaluates by
kernel reduction). -/
def decDigitsAux : Nat → Nat → List Char
  | 0, _ => []
  | _ + 1, 0 => []
  | fuel + 1, n + 1 =>
      decDigitsAux fuel ((n + 1) / 10) ++ [decChar ((n + 1) % 10)]

/-- Decimal string of a natural number, as JavaScript renders an
integer-valued number in a template literal. -/
def natToDecimal (n : Nat) : String :=
  if n = 0 then "0" else String.mk (decDigitsAux n n)

/-! ### Inbound stream events -/

/-- First-order JSON-like values (objects are encoded as field lists)
used for the pass-through `alignment` payloads. -/
inductive Json
  | str (s : String)
  | num (n : Int)
  | boolVal (b : Bool)
  | null
  | objNil
  | objCons (key : String) (value : Json) (rest : Json)
deriving DecidableEq

/-- JavaScript truthiness of a JSON value. -/
def Json.truthy : Json → Bool
  | .str s => s != ""
  | .num n => n != 0
  | .boolVal b => b
  | .null => false
  | .objNil => true
  | .objCons _ _ _ => true

/-- The fields of a parsed inbound message the handler looks at:
`data.audio` (a base64 string when present, per the provider contract)
and `data.alignment` (an arbitrary structured value, passed through). -/
structure MessageData where
  audio : Option String
  alignment : Option Json
deriving DecidableEq

/-- Truthiness of the `audio` field (`undefined` and `""` are falsy). -/
def audioTruthy : Option String → Bool
  | some s => s != ""
  | none => false

/-- Truthiness of the `alignment` field. -/
def alignmentTruthy : Option Json → Bool
  | some j => j.truthy
  | none => false

/-- A raw WebSocket message payload: either one that `JSON.parse`
decodes (with the two fields of interest extracted), or one on which
`JSON.parse` throws a `SyntaxError`. -/
inductive RawMessage
  | valid (data : MessageData)
  | malformed (raw : String)
deriving DecidableEq

/-- The WebSocket events a session observes after opening. -/
inductive WsEvent
  | message (m : RawMessage)
  | error (msg : String)
  | close
deriving DecidableEq

/-! ### Session state (the closure of `generateAudioWithTimestamps`) -/

/-- The values the session promise can be rejected with. -/
inductive SessionError
  | connectionError (msg : String)
  | emptyAudioError
  | storageError (msg : String)
deriving DecidableEq

/-- The value `resolve({ audioUrl, timestamps })` settles with. -/
structure SessionSuccess where
  audioUrl : String
  timestamps : List Json
deriving DecidableEq

/-- Settlement of the session promise. -/
inductive SessionOutcome
  | ok (r : SessionSuccess)
  | err (e : SessionError)
deriving DecidableEq

/-- An object durably written to the storage sink by `PutObjectCommand`. -/
structure S3Object where
  bucket : String
  key : String
  body : List Nat
  contentType : String
deriving DecidableEq

/-- Per-session environment: configuration values read from the
process environment, the clock value `Date.now()` returns in the close
handler, and whether the `s3Client.send` call succeeds. -/
structure SessionConfig where
  bucket : String
  region : String
  now : Nat
  s3ok : Bool
  s3errMsg : String
deriving DecidableEq

/-- The mutable state captured by the promise executor, plus the
effect log (`stored`) and a flag recording that an exception escaped a
message listener (which kills the process: no further events run). -/
structure SessionState where
  audioChunks : List (List Nat)
  timestamps : List Json
  settled : Option SessionOutcome
  stored : List S3Object
  crashed : Bool
deriving DecidableEq

/-- State at `new Promise(...)`: empty buffers, pending promise. -/
def initialSessionState : SessionState :=
  { audioChunks := [], timestamps := [], settled := none, stored := []
    crashed := false }

/-- Promise rejection: only the first settlement takes effect. -/
def promiseReject (st : SessionState) (e : SessionError) : SessionState :=
  match st.settled with
  | some _ => st
  | none => { st with settled := some (.err e) }

/-- Promise resolution: only the first settlement takes effect. -/
def promiseResolve (st : SessionState) (r : SessionSuccess) : SessionState :=
  match st.settled with
  | some _ => st
  | none => { st with settled := some (.ok r) }

/-- Body of the `message` listener after `JSON.parse` succeeded:
`if (data.audio) audioChunks.push(Buffer.from(data.audio, 'base64'));
if (data.alignment) timestamps.push(data.alignment);`. -/
def onMessageData (d : MessageData) (st : SessionState) : SessionState :=
  let st1 :=
    if audioTruthy d.audio then
      { st with audioChunks := st.audioChunks ++ [base64Decode (d.audio.getD "")] }
    else st
  if alignmentTruthy d.alignment then
    { st1 with timestamps := st1.timestamps ++ [d.alignment.getD Json.null] }
  else st1

/-- The full `message` listener: `const data = JSON.parse(message);`
throws on a malformed payload (there is no try/catch around it), so
the listener either returns the updated state or raises. -/
def messageHandler (m : RawMessage) (st : SessionState) :
    Except String SessionState :=
  match m with
  | .malformed raw => .error ("SyntaxError: Unexpected token in JSON: " ++ raw)
  | .valid d => .ok (onMessageData d st)

/-- Storage key `audio/{recordId}-{Date.now()}.mp3`. -/
def fileNameOf (recordId : String) (now : Nat) : String :=
  "audio/" ++ recordId ++ "-" ++ natToDecimal now ++ ".mp3"

/-- Public URL `https://{bucket}.s3.{region}.amazonaws.com/{fileName}`. -/
def audioUrlOf (cfg : SessionConfig) (fileName : String) : String :=
  "https://" ++ cfg.bucket ++ ".s3." ++ cfg.region ++ ".amazonaws.com/" ++ fileName

/-- The `close` listener: reject with the empty-audio error when no
chunks were accumulated, otherwise concatenate and attempt the S3
upload, resolving on success and rejecting with the S3 error on
failure.  It runs in full even when the promise is already settled. -/
def closeHandler (cfg : SessionConfig) (recordId : String)
    (st : SessionState) : SessionState :=
  if st.audioChunks.length = 0 then
    promiseReject st .emptyAudioError
  else
    let audioBuffer := st.audioChunks.flatten
    let fileName := fileNameOf recordId cfg.now
    if cfg.s3ok then
      let st1 := { st with stored := st.stored ++
        [{ bucket := cfg.bucket, key := fileName, body := audioBuffer
           contentType := "audio/mpeg" }] }
      promiseResolve st1
        { audioUrl := audioUrlOf cfg fileName, timestamps := st1.timestamps }
    else
      promiseReject st (.storageError cfg.s3errMsg)

/-- One inbound WebSocket event.  After a crash (uncaught exception in
a listener) nothing further runs. -/
def stepEvent (cfg : SessionConfig) (recordId : String)
    (st : SessionState) (e : WsEvent) : SessionState :=
  if st.crashed then st
  else
    match e with
    | .message m =>
        match messageHandler m st with
        | .ok st1 => st1
        | .error _ => { st with crashed := true }
    | .error msg => promiseReject st (.connectionError msg)
    | .close => closeHandler cfg recordId st

/-- The session promise of `generateAudioWithTimestamps`, run over a
given sequence of inbound events. -/
def runSession (cfg : SessionConfig) (recordId : String)
    (events : List WsEvent) : SessionState :=
  events.foldl (stepEvent cfg recordId) initialSessionState

/-! ### Outbound handshake (the `open` listener) -/

/-- The `voice_settings` object of the BOS message. -/
structure VoiceSettings where
  stability : Rat
  similarity_boost : Rat
deriving DecidableEq

/-- The three shapes of outbound message the `open` listener sends. -/
inductive OutboundMessage
  | bos (text : String) (settings : VoiceSettings)
  | textPayload (text : String) (flush : Bool)
  | eos (text : String)
deriving DecidableEq

/-- The `open` listener sends, in order: the BOS configuration
message, the full text with `flush: true`, and the empty-text EOS. -/
def openMessages (text : String) : List OutboundMessage :=
  [ .bos " " { stability := 0.5, similarity_boost := 0.75 },
    .textPayload text true,
    .eos "" ]

/-! ### The serverless handler (orchestration) -/

/-- The parts of the inbound request the handler reads. -/
structure Request where
  method : String
  recordId : Option String
deriving DecidableEq

/-- The JSON response body together with its status code. -/
structure Response where
  status : Nat
  message : String
  errorText : Option String
  audioUrl : Option String
  recordId : Option String
deriving DecidableEq

/-- A write-back call `airtable.update(recordId, {...})`. -/
structure UpdateCall where
  recordId : String
  audioUrl : String
  timestamps : List Json
deriving DecidableEq

/-- Log of all external collaborator calls a request performed.
`deletions` records compensating deletes of stored objects; the code
contains none, so it is always empty. -/
structure Effects where
  findCalls : List String
  stored : List S3Object
  updateCalls : List UpdateCall
  deletions : List String
deriving DecidableEq

/-- No collaborator invoked. -/
def noEffects : Effects :=
  { findCalls := [], stored := [], updateCalls := [], deletions := [] }

/-- The errors the handler's try block can end in. -/
inductive HandlerErr
  | findError (msg : String)
  | emptyScript
  | sessionErr (e : SessionError)
  | updateErr (msg : String)
deriving DecidableEq

/-- The `error.message` string of a session rejection value. -/
def SessionError.toMessage : SessionError → String
  | .connectionError msg => msg
  | .emptyAudioError => "No audio data received from ElevenLabs."
  | .storageError msg => msg

/-- The `error.message` string reaching the handler's catch block. -/
def HandlerErr.toMessage : HandlerErr → String
  | .findError msg => msg
  | .emptyScript => "Script field is empty or not found in Airtable record."
  | .sessionErr e => e.toMessage
  | .updateErr msg => msg

/-- Per-request environment for the handler: outcome of the Airtable
find, the `Script` field, the inbound WebSocket events, the session
configuration and the outcome of the Airtable update. -/
structure HandlerEnv where
  findOk : Bool
  findErrMsg : String
  script : Option String
  wsEvents : List WsEvent
  session : SessionConfig
  updateOk : Bool
  updateErrMsg : String
deriving DecidableEq

/-- Result of the handler's try block; `hang` is the case where the
session promise never settles, so the `await` suspends forever. -/
inductive TryOutcome
  | ok (r : SessionSuccess)
  | err (e : HandlerErr)
  | hang
deriving DecidableEq

/-- The try block of the handler: find the record, read `Script`,
await `generateAudioWithTimestamps`, then `airtable.update`. -/
def runTry (env : HandlerEnv) (recordId : String) : TryOutcome × Effects :=
  if env.findOk = false then
    (.err (.findError env.findErrMsg), { noEffects with findCalls := [recordId] })
  else
    match env.script with
    | none => (.err .emptyScript, { noEffects with findCalls := [recordId] })
    | some s =>
      if s = "" then
        (.err .emptyScript, { noEffects with findCalls := [recordId] })
      else
        let st := runSession env.session recordId env.wsEvents
        let eff := { noEffects with findCalls := [recordId], stored := st.stored }
        match st.settled with
        | none => (.hang, eff)
        | some (.err e) => (.err (.sessionErr e), eff)
        | some (.ok r) =>
          let eff1 := { eff with updateCalls :=
            [{ recordId := recordId, audioUrl := r.audioUrl
               timestamps := r.timestamps }] }
          if env.updateOk then (.ok r, eff1)
          else (.err (.updateErr env.updateErrMsg), eff1)

/-- The full handler: method check, `recordId` presence check (any
falsy value, in particular the empty string, fails it), then the try
block with every failure mapped to the one generic 500 response.
`none` as first component means no response is ever sent (the await
never resumed). -/
def handler (env : HandlerEnv) (req : Request) : Option Response × Effects :=
  if req.method ≠ "POST" then
    (some { status := 405, message := "Method Not Allowed. Use POST."
            errorText := none, audioUrl := none, recordId := none }, noEffects)
  else
    match req.recordId with
    | none =>
        (some { status := 400, message := "Missing required field: recordId"
                errorText := none, audioUrl := none, recordId := none }, noEffects)
    | some rid =>
      if rid = "" then
        (some { status := 400, message := "Missing required field: recordId"
                errorText := none, audioUrl := none, recordId := none }, noEffects)
      else
        match runTry env rid with
        | (.ok r, eff) =>
            (some { status := 200
                    message := "Successfully generated audio and updated records."
                    errorText := none, audioUrl := some r.audioUrl
                    recordId := some rid }, eff)
        | (.err e, eff) =>
            (some { status := 500, message := "An internal error occurred."
                    errorText := some e.toMessage, audioUrl := none
                    recordId := none }, eff)
        | (.hang, eff) => (none, eff)

/-! ### Derived classification of a message sequence -/

/-- The audio payloads (the code's classification: present and truthy
`audio` field) of a message sequence, in arrival order. -/
def audioPayloads : List MessageData → List String
  | [] => []
  | d :: rest =>
      (if audioTruthy d.audio then [d.audio.getD ""] else []) ++ audioPayloads rest

/-- The alignment payloads (present and truthy `alignment` field) of a
message sequence, in arrival order. -/
def alignmentPayloads : List MessageData → List Json
  | [] => []
  | d :: rest =>
      (if alignmentTruthy d.alignment then [d.alignment.getD Json.null] else [])
        ++ alignmentPayloads rest

/-- A sequence of well-formed inbound data messages as WebSocket events. -/
def messageEvents (msgs : List MessageData) : List WsEvent :=
  msgs.map fun d => WsEvent.message (RawMessage.valid d)

/-! ### Helper lemmas about the session step function -/

/-- The message listener, on parsed data, appends the decoded audio
payload (when the `audio` field is truthy) and the alignment payload
(when the `alignment` field is truthy) and touches nothing else. -/
lemma onMessageData_eq (d : MessageData) (st : SessionState) :
    onMessageData d st =
      { st with
        audioChunks := st.audioChunks ++
          (if audioTruthy d.audio then [base64Decode (d.audio.getD "")] else []),
        timestamps := st.timestamps ++
          (if alignmentTruthy d.alignment then [d.alignment.getD Json.null] else []) } := by
  unfold onMessageData
  cases haud : audioTruthy d.audio <;> cases hal : alignmentTruthy d.alignment <;>
    simp [haud, hal]

lemma string_eq_of_data_eq {s t : String} (h : s.data = t.data) : s = t := by
  cases s
  cases t
  exact congrArg String.mk h

/-- Rejecting an already settled promise does nothing. -/
lemma promiseReject_of_settled (st : SessionState) (e : SessionError)
    (x : SessionOutcome) (h : st.settled = some x) : promiseReject st e = st := by
  unfold promiseReject
  rw [h]

/-- Resolving an already settled promise does nothing. -/
lemma promiseResolve_of_settled (st : SessionState) (r : SessionSuccess)
    (x : SessionOutcome) (h : st.settled = some x) : promiseResolve st r = st := by
  unfold promiseResolve
  rw [h]

/-- The close listener cannot change an existing settlement. -/
lemma closeHandler_settled_some (cfg : SessionConfig) (rid : String)
    (st : SessionState) (x : SessionOutcome) (h : st.settled = some x) :
    (closeHandler cfg rid st).settled = some x := by
  unfold closeHandler
  split_ifs with h1 h2
  · simp [promiseReject, h]
  · simp [promiseResolve, h]
  · simp [promiseReject, h]

/-- No event can change an existing settlement (the promise settles
exactly once). -/
lemma stepEvent_settled_some (cfg : SessionConfig) (rid : String)
    (st : SessionState) (e : WsEvent) (x : SessionOutcome)
    (h : st.settled = some x) : (stepEvent cfg rid st e).settled = some x := by
  unfold stepEvent
  split_ifs with hc
  · exact h
  · cases e with
    | message m =>
        cases m with
        | valid d => simp [messageHandler, onMessageData_eq, h]
        | malformed raw => simpa [messageHandler] using h
    | error msg => simp [promiseReject, h]
    | close => exact closeHandler_settled_some cfg rid st x h

/-- Settlements persist through any further sequence of events. -/
lemma foldl_settled_some (cfg : SessionConfig) (rid : String)
    (events : List WsEvent) :
    ∀ (st : SessionState) (x : SessionOutcome), st.settled = some x →
      (events.foldl (stepEvent cfg rid) st).settled = some x := by
  induction events with
  | nil => intro st x h; simpa using h
  | cons e events ih =>
      intro st x h
      simp only [List.foldl_cons]
      exact ih _ _ (stepEvent_settled_some cfg rid st e x h)

/-- Processing a sequence of well-formed data messages from an
uncrashed state appends exactly the decoded audio payloads and the
alignment payloads, in arrival order, and changes nothing else. -/
lemma foldl_messageEvents (cfg : SessionConfig) (rid : String)
    (msgs : List MessageData) :
    ∀ st : SessionState, st.crashed = false →
      (messageEvents msgs).foldl (stepEvent cfg rid) st =
        { st with
          audioChunks := st.audioChunks ++ (audioPayloads msgs).map base64Decode,
          timestamps := st.timestamps ++ alignmentPayloads msgs } := by
  induction msgs with
  | nil => intro st h; simp [messageEvents, audioPayloads, alignmentPayloads]
  | cons d msgs ih =>
      intro st h
      have hstep : stepEvent cfg rid st (WsEvent.message (RawMessage.valid d))
          = onMessageData d st := by
        simp [stepEvent, messageHandler, h]
      have hcr : (onMessageData d st).crashed = false := by
        rw [onMessageData_eq]
        exact h
      have hcons : messageEvents (d :: msgs)
          = WsEvent.message (RawMessage.valid d) :: messageEvents msgs := rfl
      rw [hcons, List.foldl_cons, hstep, ih _ hcr, onMessageData_eq]
      cases haud : audioTruthy d.audio <;> cases hal : alignmentTruthy d.alignment <;>
        simp [haud, hal, audioPayloads, alignmentPayloads, List.append_assoc]

/-- Running a session on well-formed data messages followed by the
close event, with the storage write succeeding and at least one truthy
audio payload: it stores the concatenation of the decoded payloads
under the timestamped key and resolves with the public URL and the
alignment payloads. -/
lemma runSession_success (cfg : SessionConfig) (rid : String)
    (msgs : List MessageData) (hs3 : cfg.s3ok = true)
    (hne : audioPayloads msgs ≠ []) :
    runSession cfg rid (messageEvents msgs ++ [WsEvent.close]) =
      { audioChunks := (audioPayloads msgs).map base64Decode
        timestamps := alignmentPayloads msgs
        settled := some (.ok { audioUrl := audioUrlOf cfg (fileNameOf rid cfg.now)
                               timestamps := alignmentPayloads msgs })
        stored := [{ bucket := cfg.bucket, key := fileNameOf rid cfg.now
                     body := ((audioPayloads msgs).map base64Decode).flatten
                     contentType := "audio/mpeg" }]
        crashed := false } := by
  unfold runSession
  rw [List.foldl_append, foldl_messageEvents cfg rid msgs initialSessionState rfl]
  simp only [initialSessionState, List.foldl_cons, List.foldl_nil]
  simp [stepEvent, closeHandler, promiseResolve, hs3, hne]

/-- Same trace shape but with the storage write failing: nothing is
stored and the session rejects with the storage error. -/
lemma runSession_s3fail (cfg : SessionConfig) (rid : String)
    (msgs : List MessageData) (hs3 : cfg.s3ok = false)
    (hne : audioPayloads msgs ≠ []) :
    runSession cfg rid (messageEvents msgs ++ [WsEvent.close]) =
      { audioChunks := (audioPayloads msgs).map base64Decode
        timestamps := alignmentPayloads msgs
        settled := some (.err (.storageError cfg.s3errMsg))
        stored := []
        crashed := false } := by
  unfold runSession
  rw [List.foldl_append, foldl_messageEvents cfg rid msgs initialSessionState rfl]
  simp only [initialSessionState, List.foldl_cons, List.foldl_nil]
  simp [stepEvent, closeHandler, promiseReject, hs3, hne]

/-- Running a session whose data messages carry no truthy audio field,
followed by the close event: no fragment accumulates, nothing is
stored, and the session rejects with the empty-audio error. -/
lemma runSession_no_audio (cfg : SessionConfig) (rid : String)
    (msgs : List MessageData)
    (h : ∀ d ∈ msgs, audioTruthy d.audio = false) :
    runSession cfg rid (messageEvents msgs ++ [WsEvent.close]) =
      { audioChunks := []
        timestamps := alignmentPayloads msgs
        settled := some (.err .emptyAudioError)
        stored := []
        crashed := false } := by
  have hpay : audioPayloads msgs = [] := by
    induction msgs with
    | nil => rfl
    | cons d rest ih =>
        have hd := h d (by simp)
        have hrest := ih fun d' hd' => h d' (by simp [hd'])
        simp [audioPayloads, hd, hrest]
  unfold runSession
  rw [List.foldl_append, foldl_messageEvents cfg rid msgs initialSessionState rfl]
  simp only [initialSessionState, List.foldl_cons, List.foldl_nil]
  simp [stepEvent, closeHandler, promiseReject, hpay]

/-- A transport error event settles the (still pending) session with
the connection error, and nothing afterwards can change that. -/
lemma runSession_error_settled (cfg : SessionConfig) (rid : String)
    (msgs : List MessageData) (emsg : String) (rest : List WsEvent) :
    (runSession cfg rid (messageEvents msgs ++ WsEvent.error emsg :: rest)).settled
      = some (.err (.connectionError emsg)) := by
  unfold runSession
  rw [List.foldl_append, foldl_messageEvents cfg rid msgs initialSessionState rfl]
  rw [List.foldl_cons]
  apply foldl_settled_some
  simp [initialSessionState, stepEvent, promiseReject]

/-- One step preserves the invariant that a successfully settled state
has a non-empty fragment list (the length check guards resolution). -/
lemma stepEvent_ok_chunks (cfg : SessionConfig) (rid : String)
    (st : SessionState) (e : WsEvent)
    (h : ∀ r, st.settled = some (.ok r) → st.audioChunks ≠ []) :
    ∀ r, (stepEvent cfg rid st e).settled = some (.ok r) →
      (stepEvent cfg rid st e).audioChunks ≠ [] := by
  intro r hr
  unfold stepEvent at hr ⊢
  split_ifs at hr ⊢ with hc
  · exact h r hr
  · cases e with
    | message m =>
        cases m with
        | valid d =>
            simp only [messageHandler] at hr ⊢
            rw [onMessageData_eq] at hr ⊢
            simp only at hr ⊢
            have := h r hr
            simp [this]
        | malformed raw => simp only [messageHandler] at hr ⊢; exact h r hr
    | error msg =>
        simp only [promiseReject] at hr ⊢
        cases hs : st.settled with
        | some x => rw [hs] at hr; exact h r hr
        | none => rw [hs] at hr; simp at hr
    | close =>
        simp only [closeHandler] at hr ⊢
        split_ifs at hr ⊢ with h1 h2
        · simp only [promiseReject] at hr ⊢
          cases hs : st.settled with
          | some x => rw [hs] at hr; exact h r hr
          | none => rw [hs] at hr; simp at hr
        · simp only [promiseResolve] at hr ⊢
          cases hs : st.settled with
          | some x =>
              show st.audioChunks ≠ []
              exact fun hn => h1 (by simp [hn])
          | none =>
              show st.audioChunks ≠ []
              exact fun hn => h1 (by simp [hn])
        · simp only [promiseReject] at hr ⊢
          cases hs : st.settled with
          | some x =>
              show st.audioChunks ≠ []
              exact fun hn => h1 (by simp [hn])
          | none => rw [hs] at hr; simp at hr

/-- A session that resolves successfully accumulated at least one
audio fragment, whatever the event sequence was. -/
lemma runSession_ok_chunks (cfg : SessionConfig) (rid : String)
    (events : List WsEvent) :
    ∀ r, (runSession cfg rid events).settled = some (.ok r) →
      (runSession cfg rid events).audioChunks ≠ [] := by
  unfold runSession
  have main : ∀ (evs : List WsEvent) (st : SessionState),
      (∀ r, st.settled = some (.ok r) → st.audioChunks ≠ []) →
      ∀ r, (evs.foldl (stepEvent cfg rid) st).settled = some (.ok r) →
        (evs.foldl (stepEvent cfg rid) st).audioChunks ≠ [] := by
    intro evs
    induction evs with
    | nil => intro st h r hr; exact h r hr
    | cons e evs ih =>
        intro st h r hr
        simp only [List.foldl_cons] at hr ⊢
        exact ih _ (stepEvent_ok_chunks cfg rid st e h) r hr
  exact main events initialSessionState (by intro r hr; simp [initialSessionState] at hr)

/-! ### Injectivity of the decimal rendering and of the storage key -/

/-- The fuel-driven renderer agrees with the decimal digit expansion
once the fuel covers the number. -/
lemma decDigitsAux_eq : ∀ (fuel n : Nat), n ≤ fuel →
    decDigitsAux fuel n = ((Nat.digits 10 n).map decChar).reverse := by
  intro fuel
  induction fuel with
  | zero =>
      intro n hn
      interval_cases n
      simp [decDigitsAux]
  | succ fuel ih =>
      intro n hn
      match n with
      | 0 => simp [decDigitsAux]
      | m + 1 =>
          have hdiv : (m + 1) / 10 ≤ fuel := by
            have hlt : (m + 1) / 10 < m + 1 :=
              Nat.div_lt_self (Nat.succ_pos m) (by norm_num)
            omega
          rw [show decDigitsAux (fuel + 1) (m + 1)
              = decDigitsAux fuel ((m + 1) / 10) ++ [decChar ((m + 1) % 10)] from rfl]
          rw [ih _ hdiv]
          rw [Nat.digits_def' (by norm_num : (1 : Nat) < 10) (Nat.succ_pos m)]
          simp

/-- The digit characters are distinct for digit values below ten. -/
lemma decChar_inj {a b : Nat} (ha : a < 10) (hb : b < 10)
    (h : decChar a = decChar b) : a = b := by
  interval_cases a <;> interval_cases b <;> revert h <;> decide

/-- Mapping `decChar` over lists of digit values is injective. -/
lemma map_decChar_inj : ∀ {l1 l2 : List Nat},
    (∀ d ∈ l1, d < 10) → (∀ d ∈ l2, d < 10) →
    l1.map decChar = l2.map decChar → l1 = l2
  | [], [], _, _, _ => rfl
  | [], _ :: _, _, _, h => by simp at h
  | _ :: _, [], _, _, h => by simp at h
  | a :: l1, b :: l2, h1, h2, h => by
      simp only [List.map_cons, List.cons.injEq] at h
      have hhead := decChar_inj (h1 a (by simp)) (h2 b (by simp)) h.1
      have htail := map_decChar_inj (fun d hd => h1 d (by simp [hd]))
        (fun d hd => h2 d (by simp [hd])) h.2
      simp [hhead, htail]

/-- The decimal rendering of natural numbers is injective. -/
lemma natToDecimal_inj {m n : Nat} (h : natToDecimal m = natToDecimal n) :
    m = n := by
  have digitsLt : ∀ k : Nat, ∀ d ∈ Nat.digits 10 k, d < 10 := fun k d hd =>
    Nat.digits_lt_base (by norm_num) hd
  have ofZero : ∀ k : Nat, Nat.digits 10 k = [0] → k = 0 := by
    intro k hk
    have h0 := Nat.ofDigits_digits 10 k
    rw [hk] at h0
    simpa [Nat.ofDigits] using h0.symm
  unfold natToDecimal at h
  by_cases hm : m = 0 <;> by_cases hn : n = 0
  · omega
  · exfalso
    rw [if_pos hm, if_neg hn, decDigitsAux_eq n n le_rfl] at h
    have hdata : ['0'] = ((Nat.digits 10 n).map decChar).reverse :=
      congrArg String.data h
    have hmap : (Nat.digits 10 n).map decChar = ['0'] := by
      have hrev := congrArg List.reverse hdata
      simpa using hrev.symm
    have hdig : Nat.digits 10 n = [0] := by
      apply map_decChar_inj (digitsLt n) ?_ ?_
      · intro d hd
        simp at hd
        omega
      · simpa [decChar] using hmap
    exact hn (ofZero n hdig)
  · exfalso
    rw [if_neg hm, if_pos hn, decDigitsAux_eq m m le_rfl] at h
    have hdata : ((Nat.digits 10 m).map decChar).reverse = ['0'] :=
      congrArg String.data h
    have hmap : (Nat.digits 10 m).map decChar = ['0'] := by
      have hrev := congrArg List.reverse hdata
      simpa using hrev
    have hdig : Nat.digits 10 m = [0] := by
      apply map_decChar_inj (digitsLt m) ?_ ?_
      · intro d hd
        simp at hd
        omega
      · simpa [decChar] using hmap
    exact hm (ofZero m hdig)
  · rw [if_neg hm, if_neg hn, decDigitsAux_eq m m le_rfl,
      decDigitsAux_eq n n le_rfl] at h
    have hdata : ((Nat.digits 10 m).map decChar).reverse
        = ((Nat.digits 10 n).map decChar).reverse := congrArg String.data h
    have hmap : (Nat.digits 10 m).map decChar = (Nat.digits 10 n).map decChar := by
      have hrev := congrArg List.reverse hdata
      simpa using hrev
    have hdig := map_decChar_inj (digitsLt m) (digitsLt n) hmap
    calc m = Nat.ofDigits 10 (Nat.digits 10 m) := (Nat.ofDigits_digits 10 m).symm
      _ = Nat.ofDigits 10 (Nat.digits 10 n) := by rw [hdig]
      _ = n := Nat.ofDigits_digits 10 n

/-- Storage keys for the same record at different timestamps differ. -/
lemma fileNameOf_inj (rid : String) {t1 t2 : Nat}
    (h : fileNameOf rid t1 = fileNameOf rid t2) : t1 = t2 := by
  unfold fileNameOf at h
  have hd := congrArg String.data h
  simp only [String.data_append, List.append_assoc] at hd
  have h1 := List.append_cancel_left hd
  have h2 := List.append_cancel_left h1
  have h3 := List.append_cancel_left h2
  have h4 := List.append_cancel_right h3
  exact natToDecimal_inj (string_eq_of_data_eq h4)

/-- If the session settles in an error, the handler's try block never
reaches the Airtable update call. -/
lemma runTry_error_no_update (env : HandlerEnv) (rid : String)
    (e : SessionError)
    (h : (runSession env.session rid env.wsEvents).settled = some (.err e)) :
    (runTry env rid).2.updateCalls = [] := by
  cases hfind : env.findOk with
  | false => simp [runTry, hfind, noEffects]
  | true =>
      cases hs : env.script with
      | none => simp [runTry, hfind, hs, noEffects]
      | some s =>
          by_cases hse : s = ""
          · simp [runTry, hfind, hs, hse, noEffects]
          · simp [runTry, hfind, hs, hse, h, noEffects]

/-! ### The claims -/

/-- C1: for every sequence of inbound stream events (well-formed data
messages followed by the connection close, with the storage write
accepted), the audio artifact the session produces equals the
concatenation, in arrival order, of exactly the base64-decoded audio
payloads of those events, and the resolved timing list equals exactly
the alignment payloads in arrival order, passed through unchanged;
events carrying neither recognized field contribute to neither
output. -/
theorem session_assembles_audio_and_timing (cfg : SessionConfig)
    (rid : String) (msgs : List MessageData) (hs3 : cfg.s3ok = true)
    (hne : audioPayloads msgs ≠ []) :
    (runSession cfg rid (messageEvents msgs ++ [WsEvent.close])).stored
      = [{ bucket := cfg.bucket, key := fileNameOf rid cfg.now
           body := ((audioPayloads msgs).map base64Decode).flatten
           contentType := "audio/mpeg" }]
    ∧ (runSession cfg rid (messageEvents msgs ++ [WsEvent.close])).settled
      = some (.ok { audioUrl := audioUrlOf cfg (fileNameOf rid cfg.now)
                    timestamps := alignmentPayloads msgs }) := by
  rw [runSession_success cfg rid msgs hs3 hne]
  exact ⟨rfl, rfl⟩

/-- Witness for C1 at a concrete input: one message carrying both an
audio payload and an alignment payload, one message carrying neither. -/
theorem session_assembles_audio_and_timing_witness :
    (runSession { bucket := "b", region := "r", now := 7, s3ok := true, s3errMsg := "s" }
        "rec" (messageEvents
          [{ audio := some "QUJD", alignment := some (Json.str "al") },
           { audio := none, alignment := none }] ++ [WsEvent.close])).stored
      = [{ bucket := "b", key := fileNameOf "rec" 7
           body := ((audioPayloads
              [{ audio := some "QUJD", alignment := some (Json.str "al") },
               { audio := none, alignment := none }]).map base64Decode).flatten
           contentType := "audio/mpeg" }]
    ∧ (runSession { bucket := "b", region := "r", now := 7, s3ok := true, s3errMsg := "s" }
        "rec" (messageEvents
          [{ audio := some "QUJD", alignment := some (Json.str "al") },
           { audio := none, alignment := none }] ++ [WsEvent.close])).settled
      = some (.ok { audioUrl := audioUrlOf
                      { bucket := "b", region := "r", now := 7, s3ok := true, s3errMsg := "s" }
                      (fileNameOf "rec" 7)
                    timestamps := alignmentPayloads
                      [{ audio := some "QUJD", alignment := some (Json.str "al") },
                       { audio := none, alignment := none }] }) :=
  session_assembles_audio_and_timing
    { bucket := "b", region := "r", now := 7, s3ok := true, s3errMsg := "s" }
    "rec"
    [{ audio := some "QUJD", alignment := some (Json.str "al") },
     { audio := none, alignment := none }]
    rfl (by decide)

/-- C2 counterexample: a session whose single message carries the
truthy one-character base64 payload "A" (which decodes to zero bytes)
passes the emptiness check and resolves successfully while the
concatenated audio buffer it uploads is empty, so a successful result
does not always carry a non-empty audio byte sequence. -/
theorem empty_bytes_success_counterexample :
    (runSession { bucket := "b", region := "r", now := 5, s3ok := true, s3errMsg := "e" }
        "rec" [WsEvent.message (RawMessage.valid { audio := some "A", alignment := none }),
               WsEvent.close]).settled
      = some (.ok { audioUrl := "https://b.s3.r.amazonaws.com/audio/rec-5.mp3"
                    timestamps := [] })
    ∧ (runSession { bucket := "b", region := "r", now := 5, s3ok := true, s3errMsg := "e" }
        "rec" [WsEvent.message (RawMessage.valid { audio := some "A", alignment := none }),
               WsEvent.close]).stored
      = [{ bucket := "b", key := "audio/rec-5.mp3", body := []
           contentType := "audio/mpeg" }] := by
  decide

/-- C2 (amended): a session whose connection closes with zero
accumulated audio fragments rejects with the empty-audio error, with
nothing stored (the emptiness check precedes concatenation and
upload), regardless of how many alignment events were observed; and a
successful session always accumulated at least one audio fragment -
though the concatenated byte sequence itself can still be empty when
every fragment decodes to zero bytes. -/
theorem empty_session_rejects_and_success_has_fragments :
    (∀ (cfg : SessionConfig) (rid : String) (msgs : List MessageData),
        (∀ d ∈ msgs, audioTruthy d.audio = false) →
        (runSession cfg rid (messageEvents msgs ++ [WsEvent.close])).settled
            = some (.err .emptyAudioError)
        ∧ (runSession cfg rid (messageEvents msgs ++ [WsEvent.close])).stored = [])
    ∧ (∀ (cfg : SessionConfig) (rid : String) (events : List WsEvent)
        (r : SessionSuccess),
        (runSession cfg rid events).settled = some (.ok r) →
        (runSession cfg rid events).audioChunks ≠ []) := by
  constructor
  · intro cfg rid msgs h
    rw [runSession_no_audio cfg rid msgs h]
    exact ⟨rfl, rfl⟩
  · intro cfg rid events r h
    exact runSession_ok_chunks cfg rid events r h

/-- Witness for the amended C2: an alignment-only session rejects with
the empty-audio error, and a concrete successful session has a
non-empty fragment list. -/
theorem empty_session_rejects_witness :
    ((runSession { bucket := "b", region := "r", now := 3, s3ok := true, s3errMsg := "e" }
        "rec" (messageEvents [{ audio := none, alignment := some (Json.str "x") }]
          ++ [WsEvent.close])).settled = some (.err .emptyAudioError)
      ∧ (runSession { bucket := "b", region := "r", now := 3, s3ok := true, s3errMsg := "e" }
          "rec" (messageEvents [{ audio := none, alignment := some (Json.str "x") }]
            ++ [WsEvent.close])).stored = [])
    ∧ (runSession { bucket := "b", region := "r", now := 5, s3ok := true, s3errMsg := "e" }
        "rec" [WsEvent.message (RawMessage.valid { audio := some "A", alignment := none }),
               WsEvent.close]).audioChunks ≠ [] :=
  ⟨empty_session_rejects_and_success_has_fragments.1
      { bucket := "b", region := "r", now := 3, s3ok := true, s3errMsg := "e" }
      "rec" [{ audio := none, alignment := some (Json.str "x") }] (by decide),
   empty_session_rejects_and_success_has_fragments.2
      { bucket := "b", region := "r", now := 5, s3ok := true, s3errMsg := "e" }
      "rec" [WsEvent.message (RawMessage.valid { audio := some "A", alignment := none }),
             WsEvent.close]
      { audioUrl := "https://b.s3.r.amazonaws.com/audio/rec-5.mp3", timestamps := [] }
      (by decide)⟩

/-- C3, evaluated at the failing input: a payload that is not valid
JSON makes the message listener raise (there is no try/catch around
JSON.parse), the exception escapes the message-handling path, and the
session never resolves - the payload is not classified as unrecognized
and discarded. -/
theorem malformed_payload_raises :
    messageHandler (RawMessage.malformed "not json") initialSessionState
      = Except.error ("SyntaxError: Unexpected token in JSON: " ++ "not json")
    ∧ (stepEvent { bucket := "b", region := "r", now := 0, s3ok := true, s3errMsg := "e" }
        "rec" initialSessionState
        (WsEvent.message (RawMessage.malformed "not json"))).crashed = true
    ∧ (runSession { bucket := "b", region := "r", now := 0, s3ok := true, s3errMsg := "e" }
        "rec" [WsEvent.message (RawMessage.malformed "not json"), WsEvent.close]).settled
      = none :=
  ⟨rfl, by decide, by decide⟩

/-- C4 counterexample: with an audio fragment accumulated before a
transport error, the subsequent close event still performs the storage
upload even though the session already failed with the connection
error, refuting the claim that neither the storage upload nor the
write-back is performed after a transport error. -/
theorem upload_after_transport_error_counterexample :
    (runSession { bucket := "b", region := "r", now := 7, s3ok := true, s3errMsg := "s" }
        "rec" [WsEvent.message (RawMessage.valid { audio := some "QUJD", alignment := none }),
               WsEvent.error "boom", WsEvent.close]).settled
      = some (.err (.connectionError "boom"))
    ∧ (runSession { bucket := "b", region := "r", now := 7, s3ok := true, s3errMsg := "s" }
        "rec" [WsEvent.message (RawMessage.valid { audio := some "QUJD", alignment := none }),
               WsEvent.error "boom", WsEvent.close]).stored
      = [{ bucket := "b", key := "audio/rec-7.mp3", body := [65, 66, 67]
           contentType := "audio/mpeg" }] := by
  decide

/-- C4 (amended): a transport error settles the session immediately
with the connection error - the first error wins and no later event
can change the settlement - and the record-store write-back is never
performed for such a request; the storage upload, however, may still
be performed by the close listener when fragments were accumulated. -/
theorem transport_error_resolution (cfg : SessionConfig) (rid : String)
    (msgs : List MessageData) (emsg : String) (rest : List WsEvent) :
    (runSession cfg rid (messageEvents msgs ++ WsEvent.error emsg :: rest)).settled
      = some (.err (.connectionError emsg))
    ∧ (∀ (env : HandlerEnv) (rid2 : String),
        env.wsEvents = messageEvents msgs ++ WsEvent.error emsg :: rest →
        (runTry env rid2).2.updateCalls = []) := by
  constructor
  · exact runSession_error_settled cfg rid msgs emsg rest
  · intro env rid2 hev
    apply runTry_error_no_update env rid2 (.connectionError emsg)
    rw [hev]
    exact runSession_error_settled env.session rid2 msgs emsg rest

/-- Witness for the amended C4 at a concrete trace. -/
theorem transport_error_resolution_witness :
    (runSession { bucket := "b", region := "r", now := 7, s3ok := true, s3errMsg := "s" }
        "rec" (messageEvents [{ audio := some "QUJD", alignment := none }]
          ++ WsEvent.error "boom" :: [WsEvent.close])).settled
      = some (.err (.connectionError "boom"))
    ∧ (runTry { findOk := true, findErrMsg := "f", script := some "hello"
                wsEvents := messageEvents [{ audio := some "QUJD", alignment := none }]
                  ++ WsEvent.error "boom" :: [WsEvent.close]
                session := { bucket := "b", region := "r", now := 7, s3ok := true, s3errMsg := "s" }
                updateOk := true, updateErrMsg := "u" }
        "rec").2.updateCalls = [] :=
  ⟨(transport_error_resolution
      { bucket := "b", region := "r", now := 7, s3ok := true, s3errMsg := "s" }
      "rec" [{ audio := some "QUJD", alignment := none }] "boom" [WsEvent.close]).1,
   (transport_error_resolution
      { bucket := "b", region := "r", now := 7, s3ok := true, s3errMsg := "s" }
      "rec" [{ audio := some "QUJD", alignment := none }] "boom" [WsEvent.close]).2
      { findOk := true, findErrMsg := "f", script := some "hello"
        wsEvents := messageEvents [{ audio := some "QUJD", alignment := none }]
          ++ WsEvent.error "boom" :: [WsEvent.close]
        session := { bucket := "b", region := "r", now := 7, s3ok := true, s3errMsg := "s" }
        updateOk := true, updateErrMsg := "u" }
      "rec" rfl⟩

/-- C5 counterexample: a single payload carrying both a truthy audio
field and a truthy alignment field is treated as an audio fragment and
as an alignment event at once, refuting classification into exactly
one variant. -/
theorem dual_classification_counterexample :
    (onMessageData { audio := some "QUJD", alignment := some (Json.str "al") }
        initialSessionState).audioChunks = [[65, 66, 67]]
    ∧ (onMessageData { audio := some "QUJD", alignment := some (Json.str "al") }
        initialSessionState).timestamps = [Json.str "al"] := by
  decide

/-- C5 (amended): the two field checks are independent - a payload
contributes one fragment exactly when its audio field is truthy and
one timing event exactly when its alignment field is truthy, so a
payload carrying both recognized fields is classified as both at once,
one carrying neither contributes to neither, and nothing else of the
session state changes. -/
theorem independent_field_classification (d : MessageData) (st : SessionState) :
    (onMessageData d st).audioChunks
      = st.audioChunks
        ++ (if audioTruthy d.audio then [base64Decode (d.audio.getD "")] else [])
    ∧ (onMessageData d st).timestamps
      = st.timestamps
        ++ (if alignmentTruthy d.alignment then [d.alignment.getD Json.null] else [])
    ∧ (onMessageData d st).settled = st.settled
    ∧ (onMessageData d st).stored = st.stored := by
  rw [onMessageData_eq]
  exact ⟨rfl, rfl, rfl, rfl⟩

/-- C6: upon connection establishment the driver transmits exactly
three outbound messages in order - the configuration message carrying
the voice tuning parameters, the single payload message carrying the
full input text with an immediate-flush request, and the empty-text
end-of-stream signal. -/
theorem open_handshake_messages (text : String) :
    openMessages text
      = [OutboundMessage.bos " " { stability := 0.5, similarity_boost := 0.75 },
         OutboundMessage.textPayload text true,
         OutboundMessage.eos ""]
    ∧ (openMessages text).length = 3 :=
  ⟨rfl, rfl⟩

/-- C7: if the storage upload fails the request resolves to failure
with nothing stored and without attempting the record-store
write-back; if the upload succeeds but the write-back fails, the
stored artifact remains in place (no compensating deletion is
performed) while the request still resolves to failure. -/
theorem storage_failure_semantics (env : HandlerEnv) (rid scr : String)
    (msgs : List MessageData) (hrid : rid ≠ "")
    (hfind : env.findOk = true) (hscr : env.script = some scr)
    (hs : scr ≠ "") (hev : env.wsEvents = messageEvents msgs ++ [WsEvent.close])
    (hne : audioPayloads msgs ≠ []) :
    (env.session.s3ok = false →
      handler env { method := "POST", recordId := some rid }
        = (some { status := 500, message := "An internal error occurred."
                  errorText := some env.session.s3errMsg, audioUrl := none
                  recordId := none },
           { findCalls := [rid], stored := [], updateCalls := [], deletions := [] }))
    ∧ (env.session.s3ok = true → env.updateOk = false →
      handler env { method := "POST", recordId := some rid }
        = (some { status := 500, message := "An internal error occurred."
                  errorText := some env.updateErrMsg, audioUrl := none
                  recordId := none },
           { findCalls := [rid]
             stored := [{ bucket := env.session.bucket
                          key := fileNameOf rid env.session.now
                          body := ((audioPayloads msgs).map base64Decode).flatten
                          contentType := "audio/mpeg" }]
             updateCalls := [{ recordId := rid
                               audioUrl := audioUrlOf env.session (fileNameOf rid env.session.now)
                               timestamps := alignmentPayloads msgs }]
             deletions := [] })) := by
  constructor
  · intro hs3
    have hrun := runSession_s3fail env.session rid msgs hs3 hne
    rw [← hev] at hrun
    simp [handler, hrid, runTry, hfind, hscr, hs, hrun,
      HandlerErr.toMessage, SessionError.toMessage, noEffects]
  · intro hs3 hupd
    have hrun := runSession_success env.session rid msgs hs3 hne
    rw [← hev] at hrun
    simp [handler, hrid, runTry, hfind, hscr, hs, hrun, hupd,
      HandlerErr.toMessage, SessionError.toMessage, noEffects]

/-- Witness for C7 at a concrete environment (upload succeeds,
write-back fails: the artifact remains stored, no deletion occurs,
and the response is the generic 500). -/
theorem storage_failure_semantics_witness :
    handler { findOk := true, findErrMsg := "f", script := some "hello"
              wsEvents := messageEvents [{ audio := some "QUJD", alignment := none }]
                ++ [WsEvent.close]
              session := { bucket := "b", region := "r", now := 7, s3ok := true, s3errMsg := "s" }
              updateOk := false, updateErrMsg := "update failed" }
        { method := "POST", recordId := some "rec" }
      = (some { status := 500, message := "An internal error occurred."
                errorText := some "update failed", audioUrl := none, recordId := none },
         { findCalls := ["rec"]
           stored := [{ bucket := "b", key := fileNameOf "rec" 7
                        body := ((audioPayloads [{ audio := some "QUJD", alignment := none }]).map
                          base64Decode).flatten
                        contentType := "audio/mpeg" }]
           updateCalls := [{ recordId := "rec"
                             audioUrl := audioUrlOf
                               { bucket := "b", region := "r", now := 7, s3ok := true, s3errMsg := "s" }
                               (fileNameOf "rec" 7)
                             timestamps := [] }]
           deletions := [] }) :=
  (storage_failure_semantics
    { findOk := true, findErrMsg := "f", script := some "hello"
      wsEvents := messageEvents [{ audio := some "QUJD", alignment := none }]
        ++ [WsEvent.close]
      session := { bucket := "b", region := "r", now := 7, s3ok := true, s3errMsg := "s" }
      updateOk := false, updateErrMsg := "update failed" }
    "rec" "hello" [{ audio := some "QUJD", alignment := none }]
    (by decide) rfl rfl (by decide) rfl (by decide)).2 rfl rfl

/-- C8: for every successful session the stored object's key has the
form audio/recordId-timestamp.mp3 with content type audio/mpeg and a
public URL derived from the bucket name and the region; and storage
keys for the same record at two distinct millisecond timestamps are
distinct. -/
theorem storage_key_format_and_uniqueness :
    (∀ (cfg : SessionConfig) (rid : String) (msgs : List MessageData),
        cfg.s3ok = true → audioPayloads msgs ≠ [] →
        (runSession cfg rid (messageEvents msgs ++ [WsEvent.close])).stored
          = [{ bucket := cfg.bucket
               key := "audio/" ++ rid ++ "-" ++ natToDecimal cfg.now ++ ".mp3"
               body := ((audioPayloads msgs).map base64Decode).flatten
               contentType := "audio/mpeg" }]
        ∧ (runSession cfg rid (messageEvents msgs ++ [WsEvent.close])).settled
          = some (.ok { audioUrl := "https://" ++ cfg.bucket ++ ".s3." ++ cfg.region
                          ++ ".amazonaws.com/"
                          ++ ("audio/" ++ rid ++ "-" ++ natToDecimal cfg.now ++ ".mp3")
                        timestamps := alignmentPayloads msgs }))
    ∧ (∀ (rid : String) (t1 t2 : Nat), t1 ≠ t2 →
        fileNameOf rid t1 ≠ fileNameOf rid t2) := by
  constructor
  · intro cfg rid msgs hs3 hne
    rw [runSession_success cfg rid msgs hs3 hne]
    exact ⟨rfl, rfl⟩
  · intro rid t1 t2 hne heq
    exact hne (fileNameOf_inj rid heq)

/-- Witness for C8: concrete key format and distinctness of the keys
of two calls one millisecond apart. -/
theorem storage_key_format_witness :
    (runSession { bucket := "b", region := "r", now := 7, s3ok := true, s3errMsg := "s" }
        "rec" (messageEvents [{ audio := some "QUJD", alignment := none }]
          ++ [WsEvent.close])).stored
      = [{ bucket := "b", key := "audio/" ++ "rec" ++ "-" ++ natToDecimal 7 ++ ".mp3"
           body := ((audioPayloads [{ audio := some "QUJD", alignment := none }]).map
             base64Decode).flatten
           contentType := "audio/mpeg" }]
    ∧ fileNameOf "rec" 1000 ≠ fileNameOf "rec" 1001 :=
  ⟨(storage_key_format_and_uniqueness.1
      { bucket := "b", region := "r", now := 7, s3ok := true, s3errMsg := "s" }
      "rec" [{ audio := some "QUJD", alignment := none }] rfl (by decide)).1,
   storage_key_format_and_uniqueness.2 "rec" 1000 1001 (by decide)⟩

/-- C9: a non-POST request is answered 405 with no collaborator
invoked; a POST request without a usable recordId is answered 400 with
no collaborator invoked; and every failure of the try block, whatever
its kind, is mapped to the single generic 500 response whose body
carries that failure's human-readable message. -/
theorem request_validation_and_error_mapping :
    (∀ (env : HandlerEnv) (req : Request), req.method ≠ "POST" →
        handler env req
          = (some { status := 405, message := "Method Not Allowed. Use POST."
                    errorText := none, audioUrl := none, recordId := none },
             noEffects))
    ∧ (∀ (env : HandlerEnv) (req : Request), req.method = "POST" →
        req.recordId = none ∨ req.recordId = some "" →
        handler env req
          = (some { status := 400, message := "Missing required field: recordId"
                    errorText := none, audioUrl := none, recordId := none },
             noEffects))
    ∧ (∀ (env : HandlerEnv) (rid : String) (e : HandlerErr) (eff : Effects),
        rid ≠ "" → runTry env rid = (.err e, eff) →
        (handler env { method := "POST", recordId := some rid }).1
          = some { status := 500, message := "An internal error occurred."
                   errorText := some e.toMessage, audioUrl := none
                   recordId := none }) := by
  refine ⟨?_, ?_, ?_⟩
  · intro env req h
    simp [handler, h]
  · intro env req hm hrid
    cases hrid with
    | inl h => simp [handler, hm, h]
    | inr h => simp [handler, hm, h]
  · intro env rid e eff hrid htry
    simp [handler, hrid, htry]

/-- Witness for C9: a GET request, a POST without recordId, and a
concrete failing try block (record fetch fails). -/
theorem request_validation_witness :
    (handler { findOk := true, findErrMsg := "f", script := some "hello"
               wsEvents := [], session := { bucket := "b", region := "r", now := 0, s3ok := true, s3errMsg := "s" }
               updateOk := true, updateErrMsg := "u" }
        { method := "GET", recordId := some "rec" }
      = (some { status := 405, message := "Method Not Allowed. Use POST."
                errorText := none, audioUrl := none, recordId := none }, noEffects))
    ∧ (handler { findOk := true, findErrMsg := "f", script := some "hello"
                 wsEvents := [], session := { bucket := "b", region := "r", now := 0, s3ok := true, s3errMsg := "s" }
                 updateOk := true, updateErrMsg := "u" }
        { method := "POST", recordId := none }
      = (some { status := 400, message := "Missing required field: recordId"
                errorText := none, audioUrl := none, recordId := none }, noEffects))
    ∧ ((handler { findOk := false, findErrMsg := "record not found", script := some "hello"
                  wsEvents := [], session := { bucket := "b", region := "r", now := 0, s3ok := true, s3errMsg := "s" }
                  updateOk := true, updateErrMsg := "u" }
        { method := "POST", recordId := some "rec" }).1
      = some { status := 500, message := "An internal error occurred."
               errorText := some "record not found", audioUrl := none
               recordId := none }) :=
  ⟨request_validation_and_error_mapping.1
      { findOk := true, findErrMsg := "f", script := some "hello"
        wsEvents := [], session := { bucket := "b", region := "r", now := 0, s3ok := true, s3errMsg := "s" }
        updateOk := true, updateErrMsg := "u" }
      { method := "GET", recordId := some "rec" } (by decide),
   request_validation_and_error_mapping.2.1
      { findOk := true, findErrMsg := "f", script := some "hello"
        wsEvents := [], session := { bucket := "b", region := "r", now := 0, s3ok := true, s3errMsg := "s" }
        updateOk := true, updateErrMsg := "u" }
      { method := "POST", recordId := none } rfl (Or.inl rfl),
   request_validation_and_error_mapping.2.2
      { findOk := false, findErrMsg := "record not found", script := some "hello"
        wsEvents := [], session := { bucket := "b", region := "r", now := 0, s3ok := true, s3errMsg := "s" }
        updateOk := true, updateErrMsg := "u" }
      "rec" (.findError "record not found")
      { findCalls := ["rec"], stored := [], updateCalls := [], deletions := [] }
      (by decide) (by decide)⟩

/-- C10: an inbound message whose audio field holds the empty string
is falsy and contributes no fragment, and a session whose messages
carry only absent or empty-string audio fields closes with the
empty-audio failure rather than an empty successful artifact. -/
theorem empty_string_audio_skipped :
    (∀ (d : MessageData) (st : SessionState), d.audio = some "" →
        (onMessageData d st).audioChunks = st.audioChunks)
    ∧ (∀ (cfg : SessionConfig) (rid : String) (msgs : List MessageData),
        (∀ d ∈ msgs, d.audio = none ∨ d.audio = some "") →
        (runSession cfg rid (messageEvents msgs ++ [WsEvent.close])).settled
          = some (.err .emptyAudioError)) := by
  constructor
  · intro d st h
    rw [onMessageData_eq]
    simp [audioTruthy, h]
  · intro cfg rid msgs h
    have h' : ∀ d ∈ msgs, audioTruthy d.audio = false := by
      intro d hd
      rcases h d hd with h1 | h1 <;> simp [audioTruthy, h1]
    rw [runSession_no_audio cfg rid msgs h']

/-- Witness for C10: a message carrying an empty-string audio field
adds no fragment, and a session of such messages fails empty. -/
theorem empty_string_audio_skipped_witness :
    (onMessageData { audio := some "", alignment := none }
        initialSessionState).audioChunks = initialSessionState.audioChunks
    ∧ (runSession { bucket := "b", region := "r", now := 2, s3ok := true, s3errMsg := "s" }
        "rec" (messageEvents [{ audio := some "", alignment := some (Json.str "x") },
                              { audio := none, alignment := none }]
          ++ [WsEvent.close])).settled
      = some (.err .emptyAudioError) :=
  ⟨empty_string_audio_skipped.1 { audio := some "", alignment := none }
      initialSessionState rfl,
   empty_string_audio_skipped.2
      { bucket := "b", region := "r", now := 2, s3ok := true, s3errMsg := "s" }
      "rec" [{ audio := some "", alignment := some (Json.str "x") },
             { audio := none, alignment := none }] (by decide)⟩
